import Mathlib

/-!
Verification development for the S&P 500 45-week moving-average monitor.

The Python sources are shallowly embedded: pandas / numpy float series become
`List ℚ` (exact values) or `List (Option ℚ)` where `none` stands for a
NaN / warm-up ("undefined") entry.  Python float comparisons against NaN are
always false, which the `oLt`/`oGt`/`oLe`/`oGe` helpers reproduce.  Fallible
Python code (a raised exception) is embedded through `Except`.
-/

namespace SP500

/-- Python comparison `x < y` on possibly-NaN floats: any comparison with an
undefined (NaN) operand is false, no exception is raised. -/
def oLt (x y : Option ℚ) : Bool :=
  match x, y with
  | some a, some b => decide (a < b)
  | _, _ => false

/-- Python comparison `x > y` with NaN semantics (false on undefined). -/
def oGt (x y : Option ℚ) : Bool :=
  match x, y with
  | some a, some b => decide (b < a)
  | _, _ => false

/-- Python comparison `x <= y` with NaN semantics (false on undefined). -/
def oLe (x y : Option ℚ) : Bool :=
  match x, y with
  | some a, some b => decide (a ≤ b)
  | _, _ => false

/-- Python comparison `x >= y` with NaN semantics (false on undefined). -/
def oGe (x y : Option ℚ) : Bool :=
  match x, y with
  | some a, some b => decide (b ≤ a)
  | _, _ => false

/-- Read a possibly-undefined series at position `i` (NaN when out of range). -/
def getO (s : List (Option ℚ)) (i : ℕ) : Option ℚ :=
  s.getD i none

/-- `series.shift(1)` read at position `i`: the value at `i-1`, NaN at the
first position (and out of range). -/
def shift1 (s : List (Option ℚ)) (i : ℕ) : Option ℚ :=
  if i = 0 then none else getO s (i - 1)

/-- The two-series crossover vote of `SignalGenerator.generate_signals`
(src/src/signal_generator.py lines 56-64): at position `i`,
`crossover = (A > B) & (A.shift(1) <= B.shift(1))`,
`crossunder = (A < B) & (A.shift(1) >= B.shift(1))`; the `+1` assignment is
written first and the `-1` assignment second, so `-1` wins if both masks held. -/
def cross_vote (a b : List (Option ℚ)) (i : ℕ) : Int :=
  let curA := getO a i
  let curB := getO b i
  let prevA := shift1 a i
  let prevB := shift1 b i
  let crossover := oGt curA curB && oLe prevA prevB
  let crossunder := oLt curA curB && oGe prevA prevB
  if crossunder then -1 else if crossover then 1 else 0

/-- `series.rolling(window).mean()` (pandas, default `min_periods = window`):
defined from position `window - 1` on, the arithmetic mean of the trailing
`window` entries.  Used for every moving average in the sources
(src/src/indicators.py line 66, src/main.py lines 57-61). -/
def rollingMean (s : List ℚ) (w : ℕ) (i : ℕ) : Option ℚ :=
  if w ≤ i + 1 ∧ i < s.length then
    some (((s.take (i + 1)).drop (i + 1 - w)).sum / w)
  else none

/-- `delta = df['Close'].diff()`: undefined at position 0, else the difference
with the previous close (src/src/indicators.py line 90, src/main.py line 71). -/
def diffs (closes : List ℚ) : List (Option ℚ) :=
  (List.range closes.length).map (fun i =>
    if i = 0 then none
    else some (closes.getD i 0 - closes.getD (i - 1) 0))

/-- `gain = delta.where(delta > 0, 0)` (with `.fillna(0)` in indicators.py):
the positive part of each delta; the undefined first delta becomes 0 because
`NaN > 0` is false. -/
def gains (closes : List ℚ) : List ℚ :=
  (diffs closes).map (fun d =>
    match d with
    | none => 0
    | some v => if 0 < v then v else 0)

/-- `loss = -delta.where(delta < 0, 0)` (with `.fillna(0)` in indicators.py):
the negative part of each delta, negated; always nonnegative. -/
def losses (closes : List ℚ) : List ℚ :=
  (diffs closes).map (fun d =>
    match d with
    | none => 0
    | some v => if v < 0 then -v else 0)

/-- `np.finfo(float).eps = 2⁻⁵²`, substituted for a zero average loss by
`avg_loss.replace(0, np.finfo(float).eps)` in src/src/indicators.py line 99. -/
def npEps : ℚ := 1 / 2 ^ 52

/-- The RSI series of `TechnicalIndicators.calculate_rsi`
(src/src/indicators.py lines 96-106): average gain and loss are plain rolling
means over the trailing `period` entries, a zero average loss is replaced by
`npEps`, and `rsi = 100 - 100 / (1 + avg_gain / avg_loss)`. -/
def rsi_rolling (closes : List ℚ) (period : ℕ) (i : ℕ) : Option ℚ :=
  match rollingMean (gains closes) period i,
        rollingMean (losses closes) period i with
  | some g, some l => some (100 - 100 / (1 + g / (if l = 0 then npEps else l)))
  | _, _ => none

/-- The Wilder-smoothed average of `get_sp500_data` (src/main.py lines 74-80):
start from `rolling(14).mean()`, then for every position `i ≥ 14` overwrite
`avg[i] = (avg[i-1] * 13 + value[i]) / 14` in ascending order (the loop reads
the value it wrote at `i-1`).  The period is hard-coded to 14. -/
def wilder_avg (g : List ℚ) : ℕ → Option ℚ
  | 0 => rollingMean g 14 0
  | i + 1 =>
    if i + 1 < 14 then rollingMean g 14 (i + 1)
    else if i + 1 < g.length then
      match wilder_avg g i with
      | some p => some ((p * 13 + g.getD (i + 1) 0) / 14)
      | none => none
    else none

/-- The RSI value series of `get_sp500_data` (src/main.py lines 82-83):
`rs = avg_gain / avg_loss` over the Wilder-smoothed averages with no eps
substitution, then `rsi = 100 - 100/(1 + rs)` in IEEE-754 float arithmetic.
A zero average loss with a nonzero average gain gives `rs = ±inf`, and
`100 - 100/(1 ± inf) = 100 - (±0.0) = 100` exactly; a zero average loss with
a zero average gain gives `rs = 0/0 = NaN`, which propagates to an undefined
RSI entry.  (Both averages are nonnegative by construction, so these are the
only zero-denominator cases reachable from a close series.) -/
def rsi_main (closes : List ℚ) (i : ℕ) : Option ℚ :=
  match wilder_avg (gains closes) i, wilder_avg (losses closes) i with
  | some g, some l =>
    if l = 0 then
      if g = 0 then none
      else some 100
    else some (100 - 100 / (1 + g / l))
  | _, _ => none

/-- Tail of `series.ewm(span, adjust=False).mean()` after the seed:
`ema[i] = α·x[i] + (1-α)·ema[i-1]`. -/
def emaFrom (α : ℚ) (prev : ℚ) : List ℚ → List ℚ
  | [] => []
  | x :: xs =>
    let e := α * x + (1 - α) * prev
    e :: emaFrom α e xs

/-- `series.ewm(span=s, adjust=False).mean()` with `α = 2/(span+1)`, seeded at
the first entry (src/src/indicators.py lines 130-135, src/main.py lines 86-89);
defined from index 0, no warm-up gap. -/
def ema (span : ℕ) : List ℚ → List ℚ
  | [] => []
  | x :: xs => x :: emaFrom (2 / (span + 1)) x xs

/-- The only error the spec's MACD contract allows. -/
inductive MacdError where
  | invalidConfiguration
deriving DecidableEq

/-- `TechnicalIndicators.calculate_macd` (src/src/indicators.py lines 112-142):
fast/slow/signal EMAs with `macd = emaFast - emaSlow`,
`signal = ema(macd, signalSpan)`, `histogram = macd - signal`.  The source
contains no validation of the spans whatsoever, so the embedded result is
always `ok`. -/
def calculate_macd (closes : List ℚ) (fast slow sspan : ℕ) :
    Except MacdError (List ℚ × List ℚ × List ℚ) :=
  let emaFast := ema fast closes
  let emaSlow := ema slow closes
  let macd := List.zipWith (· - ·) emaFast emaSlow
  let macdSignal := ema sspan macd
  let hist := List.zipWith (· - ·) macd macdSignal
  .ok (macd, macdSignal, hist)

/-- Golden-cross test of `check_cross_signals` (src/main.py lines 209-211):
yesterday's close strictly below the 45-week MA and today's strictly above. -/
def golden_flag (cy my ct mt : Option ℚ) : Bool :=
  oLt cy my && oGt ct mt

/-- Death-cross test of `check_cross_signals` (src/main.py lines 213-215):
yesterday's close strictly above the 45-week MA and today's strictly below. -/
def death_flag (cy my ct mt : Option ℚ) : Bool :=
  oGt cy my && oLt ct mt

/-- One row of the DataFrame as read by `check_cross_signals`: the `Close` and
`45WMA` columns, each possibly NaN. -/
structure CrossRow where
  close : Option ℚ
  wma45 : Option ℚ
deriving DecidableEq

/-- `check_cross_signals` (src/main.py lines 186-217).  `none` input models
`df is None`.  Returns `(golden_cross, death_cross, signal index)`; dates are
modelled by positions in the row list. -/
def check_cross_signals (df : Option (List CrossRow)) :
    Bool × Bool × Option ℕ :=
  match df with
  | none => (false, false, none)
  | some rows =>
    if rows.length = 0 then (false, false, none)
    else if rows.length < 3 then (false, false, some (rows.length - 1))
    else
      let y := rows.getD (rows.length - 2) ⟨none, none⟩
      let t := rows.getD (rows.length - 1) ⟨none, none⟩
      (golden_flag y.close y.wma45 t.close t.wma45,
       death_flag y.close y.wma45 t.close t.wma45,
       some (rows.length - 1))

/-- The configuration surface consumed at engine construction (config.yaml
keys read in src/src/indicators.py and src/src/signal_generator.py). -/
structure Config where
  maShort : ℕ
  maLong : ℕ
  rsiShort : ℕ
  rsiLong : ℕ
  rsiOversold : ℚ
  rsiOverbought : ℚ
  macdFast : ℕ
  macdSlow : ℕ
  macdSignal : ℕ
  bbPeriod : ℕ
  bbStd : ℚ
  minConfirm : ℕ
deriving DecidableEq

/-- `series.rolling(window).std()` (sample standard deviation, ddof = 1,
src/src/indicators.py line 164).  A window of fewer than two observations has
no sample deviation (pandas yields NaN), hence the `2 ≤ w` guard.  The square
root itself is irrational, so it is abstracted as the parameter `sq` applied
to the exact sample variance; none of the verified claims depends on the
values `sq` produces, only on where the series is defined. -/
def rollingStd (sq : ℚ → ℚ) (s : List ℚ) (w : ℕ) (i : ℕ) : Option ℚ :=
  if 2 ≤ w ∧ w ≤ i + 1 ∧ i < s.length then
    let window := (s.take (i + 1)).drop (i + 1 - w)
    let m := window.sum / w
    some (sq ((window.map (fun x => (x - m) ^ 2)).sum / (w - 1)))
  else none

/-- One row of the indicator DataFrame produced by
`TechnicalIndicators.calculate_all` (src/src/indicators.py lines 18-47):
the close plus every derived column; warm-up entries are `none`. -/
structure IndRow where
  close : ℚ
  maS : Option ℚ
  maL : Option ℚ
  rsiS : Option ℚ
  rsiL : Option ℚ
  macd : ℚ
  macdSig : ℚ
  macdHist : ℚ
  bbMid : Option ℚ
  bbStd : Option ℚ
  bbUp : Option ℚ
  bbLo : Option ℚ
deriving DecidableEq, Inhabited

/-- `TechnicalIndicators.calculate_all` (src/src/indicators.py lines 18-47):
moving averages, the two RSIs, MACD (EMAs defined from index 0) and the
Bollinger Bands, one row per source row.  `BB_Upper/BB_Lower` are
`mean ± std·multiplier`, undefined exactly where the std is. -/
def calculate_all (cfg : Config) (sq : ℚ → ℚ) (closes : List ℚ) : List IndRow :=
  let macdT := List.zipWith (· - ·) (ema cfg.macdFast closes) (ema cfg.macdSlow closes)
  let macdSigT := ema cfg.macdSignal macdT
  let histT := List.zipWith (· - ·) macdT macdSigT
  (List.range closes.length).map (fun i =>
    { close := closes.getD i 0
      maS := rollingMean closes cfg.maShort i
      maL := rollingMean closes cfg.maLong i
      rsiS := rsi_rolling closes cfg.rsiShort i
      rsiL := rsi_rolling closes cfg.rsiLong i
      macd := macdT.getD i 0
      macdSig := macdSigT.getD i 0
      macdHist := histT.getD i 0
      bbMid := rollingMean closes cfg.bbPeriod i
      bbStd := rollingStd sq closes cfg.bbPeriod i
      bbUp := (rollingMean closes cfg.bbPeriod i).bind (fun m =>
        (rollingStd sq closes cfg.bbPeriod i).map (fun sd => m + sd * cfg.bbStd))
      bbLo := (rollingMean closes cfg.bbPeriod i).bind (fun m =>
        (rollingStd sq closes cfg.bbPeriod i).map (fun sd => m - sd * cfg.bbStd)) })

/-- `pd.isna`-freedom of a whole row: `df.dropna()` keeps exactly the rows in
which every column is defined. -/
def rowDefined (r : IndRow) : Bool :=
  r.maS.isSome && r.maL.isSome && r.rsiS.isSome && r.rsiL.isSome &&
  r.bbMid.isSome && r.bbStd.isSome && r.bbUp.isSome && r.bbLo.isSome

/-- `df = data.copy().dropna()` (src/src/signal_generator.py line 35). -/
def dropna (rows : List IndRow) : List IndRow :=
  rows.filter rowDefined

/-- MA crossover vote on the dropna'd frame (src/src/signal_generator.py
lines 56-64); `shift(1)` is NaN at the first row. -/
def maSignalAt (d : List IndRow) (i : ℕ) : Int :=
  let cur := d.getD i default
  let prevS := if i = 0 then none else (d.getD (i - 1) default).maS
  let prevL := if i = 0 then none else (d.getD (i - 1) default).maL
  let crossover := oGt cur.maS cur.maL && oLe prevS prevL
  let crossunder := oLt cur.maS cur.maL && oGe prevS prevL
  if crossunder then -1 else if crossover then 1 else 0

/-- RSI vote (src/src/signal_generator.py lines 66-74): +1 when RSI rises
through the oversold level, -1 when it falls through the overbought level;
the -1 assignment is written second and wins. -/
def rsiSignalAt (cfg : Config) (d : List IndRow) (i : ℕ) : Int :=
  let cur := d.getD i default
  let prev := if i = 0 then none else (d.getD (i - 1) default).rsiS
  let oversoldSig := oGt cur.rsiS (some cfg.rsiOversold) && oLe prev (some cfg.rsiOversold)
  let overboughtSig := oLt cur.rsiS (some cfg.rsiOverbought) && oGe prev (some cfg.rsiOverbought)
  if overboughtSig then -1 else if oversoldSig then 1 else 0

/-- MACD vote (src/src/signal_generator.py lines 76-84). -/
def macdSignalAt (d : List IndRow) (i : ℕ) : Int :=
  let cur := d.getD i default
  let prevM := if i = 0 then none else some (d.getD (i - 1) default).macd
  let prevS := if i = 0 then none else some (d.getD (i - 1) default).macdSig
  let crossover := oGt (some cur.macd) (some cur.macdSig) && oLe prevM prevS
  let crossunder := oLt (some cur.macd) (some cur.macdSig) && oGe prevM prevS
  if crossunder then -1 else if crossover then 1 else 0

/-- Bollinger vote (src/src/signal_generator.py lines 86-104): rows are
visited from index 1; a lower-band recovery sets +1, an upper-band loss sets
-1 afterwards (overwriting). -/
def bbSignalAt (d : List IndRow) (i : ℕ) : Int :=
  if i = 0 then 0
  else
    let cur := d.getD i default
    let prev := d.getD (i - 1) default
    let lower := oLe (some prev.close) prev.bbLo && oGt (some cur.close) cur.bbLo
    let upper := oGe (some prev.close) prev.bbUp && oLt (some cur.close) cur.bbUp
    if upper then -1 else if lower then 1 else 0

/-- Price-vs-long-MA vote (src/src/signal_generator.py lines 106-124). -/
def priceMaSignalAt (d : List IndRow) (i : ℕ) : Int :=
  if i = 0 then 0
  else
    let cur := d.getD i default
    let prev := d.getD (i - 1) default
    let up := oGt (some cur.close) cur.maL && oLe (some prev.close) prev.maL
    let down := oLt (some cur.close) cur.maL && oGe (some prev.close) prev.maL
    if down then -1 else if up then 1 else 0

/-- `Total_Buy_Signals`: the count of rule columns voting `> 0`
(src/src/signal_generator.py line 128). -/
def total_buy_signals (votes : List Int) : ℕ :=
  votes.countP (fun v => decide (0 < v))

/-- `Total_Sell_Signals`: the count of rule columns voting `< 0`
(src/src/signal_generator.py line 129). -/
def total_sell_signals (votes : List Int) : ℕ :=
  votes.countP (fun v => decide (v < 0))

/-- One row of the signals DataFrame built by
`SignalGenerator.generate_signals`. -/
structure SigRow where
  price : ℚ
  maSignal : Int
  rsiSignal : Int
  macdSignal : Int
  bbSignal : Int
  priceMaRelation : Int
  totalBuy : ℕ
  totalSell : ℕ
  buySignal : Bool
  sellSignal : Bool
deriving DecidableEq, Inhabited

/-- `SignalGenerator.generate_signals` (src/src/signal_generator.py
lines 20-147): drop every row containing a NaN, compute the five rule votes
per remaining row, count buy/sell votes, and confirm when the count reaches
`min_confirm`.  The output is indexed by the dropna'd frame. -/
def generate_signals (cfg : Config) (data : List IndRow) : List SigRow :=
  let d := dropna data
  (List.range d.length).map (fun i =>
    let votes := [maSignalAt d i, rsiSignalAt cfg d i, macdSignalAt d i,
                  bbSignalAt d i, priceMaSignalAt d i]
    { price := (d.getD i default).close
      maSignal := maSignalAt d i
      rsiSignal := rsiSignalAt cfg d i
      macdSignal := macdSignalAt d i
      bbSignal := bbSignalAt d i
      priceMaRelation := priceMaSignalAt d i
      totalBuy := total_buy_signals votes
      totalSell := total_sell_signals votes
      buySignal := decide (cfg.minConfirm ≤ total_buy_signals votes)
      sellSignal := decide (cfg.minConfirm ≤ total_sell_signals votes) })

/-- One row of the DataFrame as read by `check_all_signals` (src/main.py):
every consulted column, each possibly NaN. -/
structure ARow where
  close : Option ℚ
  wma45 : Option ℚ
  ma50 : Option ℚ
  ma200 : Option ℚ
  bbUpper : Option ℚ
  bbLower : Option ℚ
  rsi : Option ℚ
  macd : Option ℚ
  macdSignal : Option ℚ
  macdHist : Option ℚ
  vix : Option ℚ
deriving DecidableEq, Inhabited

/-- The DataFrame handed to `check_all_signals`: its rows plus whether the
optional `VIX` column was merged at all (`'VIX' in df.columns`). -/
structure AFrame where
  rows : List ARow
  hasVIX : Bool
deriving DecidableEq

/-- The kinds of entries `check_all_signals` can put into its signals dict;
each kind determines the action/strength/description strings attached in the
source, so only the kind is modelled. -/
inductive SigKind where
  | goldenCross
  | deathCross
  | upperBreakout
  | lowerBreakdown
  | lowerBounce
  | rsiRebound
  | rsiPullback
  | rsiExtremeOversold
  | rsiExtremeOverbought
  | macdGolden
  | macdDeath
  | histPositive
  | histNegative
  | vixHigh
  | vixModerate
  | vixLow
  | vixSurge
deriving DecidableEq

/-- The signals dict of `check_all_signals`, one optional entry per key. -/
structure Signals where
  wma45 : Option SigKind
  ma50200 : Option SigKind
  price50 : Option SigKind
  price200 : Option SigKind
  bollinger : Option SigKind
  rsi : Option SigKind
  macd : Option SigKind
  macdHist : Option SigKind
  vix : Option SigKind
  vixSurge : Option SigKind
deriving DecidableEq

/-- The empty signals dict. -/
def emptySignals : Signals :=
  ⟨none, none, none, none, none, none, none, none, none, none⟩

/-- The Python exceptions the embedded code can raise. -/
inductive PyError where
  | typeError
deriving DecidableEq

/-- `check_all_signals` (src/main.py lines 219-319).  For `df is None` the
guard `df is None or len(df) < 3` is true, but the return expression
`return {}, df.index[-1] if len(df) > 0 else None` evaluates `len(df)` on
`None` and raises `TypeError`; for a real frame shorter than 3 rows it
returns the empty dict.  Otherwise the eight signal families are evaluated on
the last three rows with NaN-safe comparisons. -/
def check_all_signals (df : Option AFrame) :
    Except PyError (Signals × Option ℕ) :=
  match df with
  | none => Except.error PyError.typeError
  | some f =>
    if f.rows.length < 3 then
      Except.ok (emptySignals,
        if 0 < f.rows.length then some (f.rows.length - 1) else none)
    else
      let t := f.rows.getD (f.rows.length - 1) default
      let y := f.rows.getD (f.rows.length - 2) default
      let dy := f.rows.getD (f.rows.length - 3) default
      let macdCrossG := oLt y.macd y.macdSignal && oGt t.macd t.macdSignal
      let macdCrossD := oGt y.macd y.macdSignal && oLt t.macd t.macdSignal
      let vixGuard := f.hasVIX && t.vix.isSome
      Except.ok
        ({ wma45 :=
            if golden_flag y.close y.wma45 t.close t.wma45 then some .goldenCross
            else if death_flag y.close y.wma45 t.close t.wma45 then some .deathCross
            else none
           ma50200 :=
            if oLt y.ma50 y.ma200 && oGt t.ma50 t.ma200 then some .goldenCross
            else if oGt y.ma50 y.ma200 && oLt t.ma50 t.ma200 then some .deathCross
            else none
           price50 :=
            if oLt y.close y.ma50 && oGt t.close t.ma50 then some .goldenCross
            else if oGt y.close y.ma50 && oLt t.close t.ma50 then some .deathCross
            else none
           price200 :=
            if oLt y.close y.ma200 && oGt t.close t.ma200 then some .goldenCross
            else if oGt y.close y.ma200 && oLt t.close t.ma200 then some .deathCross
            else none
           bollinger :=
            if oLt y.close y.bbUpper && oGt t.close t.bbUpper then some .upperBreakout
            else if oGt y.close y.bbLower && oLt t.close t.bbLower then some .lowerBreakdown
            else if oLe dy.close dy.bbLower && oLe y.close y.bbLower &&
                    oGt t.close t.bbLower then some .lowerBounce
            else none
           rsi :=
            if oLt y.rsi (some 30) && oGt t.rsi (some 30) then some .rsiRebound
            else if oGt y.rsi (some 70) && oLt t.rsi (some 70) then some .rsiPullback
            else if oLt t.rsi (some 20) then some .rsiExtremeOversold
            else if oGt t.rsi (some 80) then some .rsiExtremeOverbought
            else none
           macd :=
            if macdCrossG then some .macdGolden
            else if macdCrossD then some .macdDeath
            else none
           macdHist :=
            if macdCrossG || macdCrossD then none
            else if oLt y.macdHist (some 0) && oGt t.macdHist (some 0) then
              some .histPositive
            else if oGt y.macdHist (some 0) && oLt t.macdHist (some 0) then
              some .histNegative
            else none
           vix :=
            if vixGuard then
              if oGt t.vix (some 30) then some .vixHigh
              else if oGt t.vix (some 20) then some .vixModerate
              else if oLt t.vix (some 12) then some .vixLow
              else none
            else none
           vixSurge :=
            if vixGuard && oGt y.vix (some 0) then
              match t.vix, y.vix with
              | some vt, some vy =>
                if 30 < (vt - vy) / vy * 100 then some .vixSurge else none
              | _, _ => none
            else none },
         some (f.rows.length - 1))

/-- A fully-defined indicator row and a small configuration used as concrete
test inputs. -/
def cfgCx : Config :=
  { maShort := 1, maLong := 2, rsiShort := 1, rsiLong := 1,
    rsiOversold := 30, rsiOverbought := 70,
    macdFast := 1, macdSlow := 1, macdSignal := 1,
    bbPeriod := 2, bbStd := 2, minConfirm := 2 }

@[simp] theorem oLt_none_left (y : Option ℚ) : oLt none y = false := by
  cases y <;> rfl

@[simp] theorem oLt_none_right (x : Option ℚ) : oLt x none = false := by
  cases x <;> rfl

@[simp] theorem oGt_none_left (y : Option ℚ) : oGt none y = false := by
  cases y <;> rfl

@[simp] theorem oGt_none_right (x : Option ℚ) : oGt x none = false := by
  cases x <;> rfl

@[simp] theorem oLe_none_left (y : Option ℚ) : oLe none y = false := by
  cases y <;> rfl

@[simp] theorem oLe_none_right (x : Option ℚ) : oLe x none = false := by
  cases x <;> rfl

@[simp] theorem oGe_none_left (y : Option ℚ) : oGe none y = false := by
  cases y <;> rfl

@[simp] theorem oGe_none_right (x : Option ℚ) : oGe x none = false := by
  cases x <;> rfl

theorem oGt_eq_false_of_oLt {x y : Option ℚ} (h : oLt x y = true) :
    oGt x y = false := by
  cases x with
  | none => cases y <;> rfl
  | some a =>
    cases y with
    | none => rfl
    | some b =>
      simp only [oLt, decide_eq_true_eq] at h
      simp only [oGt, decide_eq_false_iff_not]
      exact not_lt.2 h.le

/-- C1: if either operand series is undefined (NaN / warm-up) at position
`i-1` or `i`, the `SignalGenerator` crossover detector votes 0 at `i`, and the
45-week-MA golden/death cross tests of `check_cross_signals` are both false
whenever any of their four operands is undefined; the comparisons are total
functions, so no exception is raised. -/
theorem crossDetector_undefined_no_signal
    (a b : List (Option ℚ)) (i : ℕ) (cy my ct mt : Option ℚ)
    (h1 : getO a i = none ∨ getO b i = none ∨
          shift1 a i = none ∨ shift1 b i = none)
    (h2 : cy = none ∨ my = none ∨ ct = none ∨ mt = none) :
    cross_vote a b i = 0 ∧
    golden_flag cy my ct mt = false ∧ death_flag cy my ct mt = false := by
  refine ⟨?_, ?_, ?_⟩
  · unfold cross_vote
    rcases h1 with h | h | h | h <;> simp [h]
  · unfold golden_flag
    rcases h2 with h | h | h | h <;> subst h <;> simp
  · unfold death_flag
    rcases h2 with h | h | h | h <;> subst h <;> simp

/-- Witness for C1: a concrete warm-up configuration (second entry of the MA
series undefined, all `check_cross_signals` operands undefined) produces no
signal. -/
theorem crossDetector_undefined_no_signal_witness :
    cross_vote [some 1, some 2] [some 1, none] 1 = 0 ∧
    golden_flag none none none none = false ∧
    death_flag none none none none = false :=
  crossDetector_undefined_no_signal [some 1, some 2] [some 1, none] 1
    none none none none (Or.inr (Or.inl (by rfl)))
    (Or.inl rfl)

/-- C10: `check_cross_signals` never reports a golden cross and a death cross
simultaneously: the golden test needs yesterday's close strictly below the
45-week MA and the death test needs it strictly above, which cannot both hold. -/
theorem check_cross_signals_not_both
    (df : Option (List CrossRow)) :
    ((check_cross_signals df).1 && (check_cross_signals df).2.1) = false := by
  unfold check_cross_signals
  cases df with
  | none => rfl
  | some rows =>
    by_cases h0 : rows.length = 0
    · simp [h0]
    · by_cases h3 : rows.length < 3
      · simp [h0, h3]
      · simp only [h0, h3, if_false]
        set y := rows.getD (rows.length - 2) ⟨none, none⟩
        set t := rows.getD (rows.length - 1) ⟨none, none⟩
        by_cases hg : oLt y.close y.wma45 = true
        · have hd := oGt_eq_false_of_oLt hg
          simp [golden_flag, death_flag, hd]
        · simp [golden_flag, death_flag, Bool.eq_false_iff.2 hg]

theorem rolling_slice_eq_map (s : List ℚ) (w i : ℕ)
    (hw : w ≤ i + 1) (hi : i < s.length) :
    (s.take (i + 1)).drop (i + 1 - w)
      = (List.range w).map (fun k => s.getD (i + 1 - w + k) 0) := by
  have hlen : ((s.take (i + 1)).drop (i + 1 - w)).length = w := by
    simp only [List.length_drop, List.length_take]
    omega
  apply List.ext_getElem
  · simp [hlen]
  · intro j hj1 hj2
    have hjw : j < w := by simpa [hlen] using hj1
    have hidx : i + 1 - w + j < s.length := by omega
    have htake : i + 1 - w + j < (s.take (i + 1)).length := by
      simp only [List.length_take]
      omega
    rw [List.getElem_drop, List.getElem_map, List.getElem_range,
        List.getElem_take, List.getD_eq_getElem s 0 hidx]

/-- C5: `rolling(window).mean()` at every position `i ≥ window - 1` inside the
series equals the exact arithmetic mean of entries `i-window+1 .. i`, and is
undefined at every position `i < window - 1`, for every positive window. -/
theorem movingAverage_spec (s : List ℚ) (w i : ℕ) (hw : 1 ≤ w) :
    (w - 1 ≤ i → i < s.length →
      rollingMean s w i
        = some (((List.range w).map (fun k => s.getD (i + 1 - w + k) 0)).sum / w)) ∧
    (i < w - 1 → rollingMean s w i = none) := by
  constructor
  · intro hwi hi
    have hw1 : w ≤ i + 1 := by omega
    unfold rollingMean
    rw [if_pos ⟨hw1, hi⟩, rolling_slice_eq_map s w i hw1 hi]
  · intro hlt
    unfold rollingMean
    rw [if_neg]
    intro ⟨h1, _⟩
    omega

/-- Witness for C5 at the spec's own scenario `price = [100, 99, 98, 101, 102]`,
`window = 3`: the mean over positions 0..2 is 99, and position 0 is undefined. -/
theorem movingAverage_spec_witness :
    rollingMean [100, 99, 98, 101, 102] 3 2
      = some (((List.range 3).map
          (fun k => ([100, 99, 98, 101, 102] : List ℚ).getD (2 + 1 - 3 + k) 0)).sum / 3)
    ∧ rollingMean [100, 99, 98, 101, 102] 3 0 = none :=
  ⟨(movingAverage_spec [100, 99, 98, 101, 102] 3 2 (by decide)).1
      (by decide) (by decide),
   (movingAverage_spec [100, 99, 98, 101, 102] 3 0 (by decide)).2 (by decide)⟩

theorem gains_length (closes : List ℚ) : (gains closes).length = closes.length := by
  simp [gains, diffs]

theorem losses_length (closes : List ℚ) : (losses closes).length = closes.length := by
  simp [losses, diffs]

theorem wilder_avg_13 (g : List ℚ) (hl : 13 < g.length) :
    wilder_avg g 13 = some ((g.take 14).sum / 14) := by
  show wilder_avg g (12 + 1) = _
  unfold wilder_avg
  rw [if_pos (by omega : (12 : ℕ) + 1 < 14)]
  unfold rollingMean
  rw [if_pos (⟨by omega, by omega⟩ : 14 ≤ 12 + 1 + 1 ∧ 12 + 1 < g.length)]
  norm_num

theorem wilder_avg_isSome (g : List ℚ) :
    ∀ j, 13 ≤ j → j < g.length → ∃ p, wilder_avg g j = some p := by
  intro j
  induction j with
  | zero => intro h; omega
  | succ n ih =>
    intro h13 hlen
    by_cases h : n + 1 < 14
    · have hn : n = 12 := by omega
      subst hn
      exact ⟨_, wilder_avg_13 g (by omega)⟩
    · obtain ⟨p, hp⟩ := ih (by omega) (by omega)
      refine ⟨(p * 13 + g.getD (n + 1) 0) / 14, ?_⟩
      unfold wilder_avg
      rw [if_neg h, if_pos hlen, hp]

/-- Counterexample for C3: in `TechnicalIndicators.calculate_rsi`
(src/src/indicators.py lines 97-98) the average gain is a plain rolling mean
for every index, so for closes `[0, 4, 4, 0]` with period 2 the average gain
at index 3 is 0, while the Wilder recurrence
`(avg[2]*(period-1) + gain[3]) / period = (2*1 + 0)/2 = 1` demands 1. -/
theorem rsi_avg_not_wilder_cx :
    rollingMean (gains [0, 4, 4, 0]) 2 2 = some 2 ∧
    rollingMean (gains [0, 4, 4, 0]) 2 3
      ≠ some ((2 * (2 - 1) + (gains [0, 4, 4, 0]).getD 3 0) / 2) := by
  constructor
  · norm_num [rollingMean, gains, diffs, List.range_succ]
  · norm_num [rollingMean, gains, diffs, List.range_succ]

/-- C3 amended: only the RSI of `get_sp500_data` (src/main.py lines 74-80,
period hard-coded to 14) is Wilder-smoothed: for every index `14 ≤ i < n` the
average gain and average loss obey `avg[i] = (avg[i-1]*13 + value[i]) / 14`,
and the seed at index 13 is the rolling mean of the first 14 entries of the
gain/loss series, in which the undefined delta at index 0 contributes 0 (so it
is not the simple mean of the first 14 defined deltas).  The RSI of
`indicators.py` instead keeps plain rolling means at every index. -/
theorem rsi_wilder_recurrence (closes : List ℚ) (i : ℕ)
    (h14 : 14 ≤ i) (hlen : i < closes.length) :
    (∃ p, wilder_avg (gains closes) (i - 1) = some p ∧
          wilder_avg (gains closes) i
            = some ((p * 13 + (gains closes).getD i 0) / 14)) ∧
    (∃ q, wilder_avg (losses closes) (i - 1) = some q ∧
          wilder_avg (losses closes) i
            = some ((q * 13 + (losses closes).getD i 0) / 14)) ∧
    wilder_avg (gains closes) 13 = some (((gains closes).take 14).sum / 14) ∧
    wilder_avg (losses closes) 13 = some (((losses closes).take 14).sum / 14) := by
  have hg : (gains closes).length = closes.length := gains_length closes
  have hl : (losses closes).length = closes.length := losses_length closes
  obtain ⟨k, hk⟩ : ∃ k, i = k + 1 := ⟨i - 1, by omega⟩
  subst hk
  refine ⟨?_, ?_, wilder_avg_13 (gains closes) (by omega),
    wilder_avg_13 (losses closes) (by omega)⟩
  · obtain ⟨p, hp⟩ := wilder_avg_isSome (gains closes) k (by omega) (by omega)
    refine ⟨p, by simpa using hp, ?_⟩
    unfold wilder_avg
    rw [if_neg (by omega), if_pos (by omega), hp]
  · obtain ⟨q, hq⟩ := wilder_avg_isSome (losses closes) k (by omega) (by omega)
    refine ⟨q, by simpa using hq, ?_⟩
    unfold wilder_avg
    rw [if_neg (by omega), if_pos (by omega), hq]

/-- Witness for C3 (amended) on 15 constant closes at index 14. -/
theorem rsi_wilder_recurrence_witness :
    (∃ p, wilder_avg (gains (List.replicate 15 0)) (14 - 1) = some p ∧
          wilder_avg (gains (List.replicate 15 0)) 14
            = some ((p * 13 + (gains (List.replicate 15 0)).getD 14 0) / 14)) ∧
    (∃ q, wilder_avg (losses (List.replicate 15 0)) (14 - 1) = some q ∧
          wilder_avg (losses (List.replicate 15 0)) 14
            = some ((q * 13 + (losses (List.replicate 15 0)).getD 14 0) / 14)) ∧
    wilder_avg (gains (List.replicate 15 0)) 13
      = some (((gains (List.replicate 15 0)).take 14).sum / 14) ∧
    wilder_avg (losses (List.replicate 15 0)) 13
      = some (((losses (List.replicate 15 0)).take 14).sum / 14) :=
  rsi_wilder_recurrence (List.replicate 15 0) 14 (by omega) (by simp)

theorem gains_nonneg (closes : List ℚ) : ∀ x ∈ gains closes, 0 ≤ x := by
  intro x hx
  simp only [gains, List.mem_map] at hx
  obtain ⟨d, _, hd⟩ := hx
  subst hd
  cases d with
  | none => exact le_rfl
  | some v =>
    dsimp only
    split
    · linarith
    · exact le_rfl

theorem losses_nonneg (closes : List ℚ) : ∀ x ∈ losses closes, 0 ≤ x := by
  intro x hx
  simp only [losses, List.mem_map] at hx
  obtain ⟨d, _, hd⟩ := hx
  subst hd
  cases d with
  | none => exact le_rfl
  | some v =>
    dsimp only
    split
    · linarith
    · exact le_rfl

theorem rollingMean_nonneg {s : List ℚ} (hs : ∀ x ∈ s, 0 ≤ x)
    {w i : ℕ} {m : ℚ} (h : rollingMean s w i = some m) : 0 ≤ m := by
  unfold rollingMean at h
  split at h
  · injection h with h
    subst h
    apply div_nonneg
    · apply List.sum_nonneg
      intro x hx
      exact hs x (List.mem_of_mem_take (List.mem_of_mem_drop hx))
    · positivity
  · exact absurd h (by simp)

theorem getD_nonneg {l : List ℚ} (hl : ∀ x ∈ l, 0 ≤ x) (i : ℕ) :
    0 ≤ l.getD i 0 := by
  by_cases h : i < l.length
  · rw [List.getD_eq_getElem _ _ h]
    exact hl _ (List.getElem_mem h)
  · rw [List.getD_eq_default _ _ (by omega)]

theorem wilder_avg_nonneg {g : List ℚ} (hg : ∀ x ∈ g, 0 ≤ x) :
    ∀ i p, wilder_avg g i = some p → 0 ≤ p := by
  intro i
  induction i with
  | zero =>
    intro p hp
    unfold wilder_avg at hp
    exact rollingMean_nonneg hg hp
  | succ n ih =>
    intro p hp
    unfold wilder_avg at hp
    split at hp
    · exact rollingMean_nonneg hg hp
    · split at hp
      · cases hw : wilder_avg g n with
        | none => rw [hw] at hp; exact absurd hp (by simp)
        | some q =>
          rw [hw] at hp
          injection hp with hp
          subst hp
          have hq := ih q hw
          have hx := getD_nonneg hg (n + 1)
          apply div_nonneg _ (by norm_num)
          linarith
      · exact absurd hp (by simp)

/-- Counterexample for C4: for the constant closes `[5, 5, 5]` with period 2,
both the average gain and the average loss at index 2 are 0, and
`calculate_rsi` (src/src/indicators.py lines 97-100, zero loss replaced by
`eps`) yields RSI = 0 there — not the 50 the claim requires. -/
theorem rsi_both_zero_cx :
    rollingMean (gains [5, 5, 5]) 2 2 = some 0 ∧
    rollingMean (losses [5, 5, 5]) 2 2 = some 0 ∧
    rsi_rolling [5, 5, 5] 2 2 = some 0 ∧ ¬ rsi_rolling [5, 5, 5] 2 2 = some 50 := by
  refine ⟨?_, ?_, ?_, ?_⟩ <;>
    norm_num [rsi_rolling, rollingMean, gains, losses, diffs, npEps,
      List.range_succ]

/-- C4 amended: the two RSI implementations diverge from the claim only in
the zero-loss cases, differently.  In `calculate_rsi` (src/src/indicators.py,
zero average loss replaced by `eps = 2⁻⁵²`) every defined entry equals
`100 - 100/(1 + avgGain/avgLoss')` with `avgLoss'` the eps-substituted loss,
lies in `[0, 100)` — hence strictly below 100 even when `avgLoss = 0` and
`avgGain > 0` — and is exactly 0 (not 50) when both averages are 0.  In
`get_sp500_data` (src/main.py lines 82-83, Wilder averages, no eps): when
`avgLoss = 0` and `avgGain > 0` the value is exactly 100 as the claim states
(inf division); when both averages are 0 the entry is NaN (undefined, not 50);
every defined entry lies in `[0, 100]` and equals `100 - 100/(1 + rs)` with
finite `rs = avgGain/avgLoss` whenever `avgLoss ≠ 0`. -/
theorem rsi_rolling_formula_range (closes : List ℚ) (period i : ℕ) (r : ℚ)
    (h : rsi_rolling closes period i = some r) :
    (0 ≤ r ∧ r < 100 ∧
     (∃ g l, rollingMean (gains closes) period i = some g ∧
             rollingMean (losses closes) period i = some l ∧
             r = 100 - 100 / (1 + g / (if l = 0 then npEps else l))) ∧
     (rollingMean (gains closes) period i = some 0 →
      rollingMean (losses closes) period i = some 0 → r = 0)) ∧
    (∀ j g, wilder_avg (gains closes) j = some g → 0 < g →
      wilder_avg (losses closes) j = some 0 →
      rsi_main closes j = some 100) ∧
    (∀ j, wilder_avg (gains closes) j = some 0 →
      wilder_avg (losses closes) j = some 0 →
      rsi_main closes j = none) ∧
    (∀ j s, rsi_main closes j = some s → 0 ≤ s ∧ s ≤ 100 ∧
      (∃ g l, wilder_avg (gains closes) j = some g ∧
              wilder_avg (losses closes) j = some l ∧
              (l = 0 ∨ s = 100 - 100 / (1 + g / l)))) := by
  refine ⟨?_, ?_, ?_, ?_⟩
  · unfold rsi_rolling at h
    cases hg : rollingMean (gains closes) period i with
    | none => rw [hg] at h; exact absurd h (by simp)
    | some g =>
      cases hl : rollingMean (losses closes) period i with
      | none => rw [hg, hl] at h; exact absurd h (by simp)
      | some l =>
        rw [hg, hl] at h
        injection h with h
        subst h
        have hg0 : 0 ≤ g := rollingMean_nonneg (gains_nonneg closes) hg
        have hl0 : 0 ≤ l := rollingMean_nonneg (losses_nonneg closes) hl
        have hl' : 0 < (if l = 0 then npEps else l) := by
          split
          · norm_num [npEps]
          · rename_i hne
            exact lt_of_le_of_ne hl0 (fun hh => hne hh.symm)
        have hrs : 0 ≤ g / (if l = 0 then npEps else l) := div_nonneg hg0 hl'.le
        refine ⟨?_, ?_, ⟨g, l, rfl, rfl, rfl⟩, ?_⟩
        · have : 100 / (1 + g / (if l = 0 then npEps else l)) ≤ 100 :=
            div_le_self (by norm_num) (by linarith)
          linarith
        · have : 0 < 100 / (1 + g / (if l = 0 then npEps else l)) :=
            div_pos (by norm_num) (by linarith)
          linarith
        · intro hg' hl'
          injection hg' with hg'
          injection hl' with hl'
          subst hg'
          subst hl'
          norm_num
  · intro j g hgj hgpos hlj
    simp [rsi_main, hgj, hlj, hgpos.ne']
  · intro j hgj hlj
    simp [rsi_main, hgj, hlj]
  · intro j s hs
    unfold rsi_main at hs
    cases hgj : wilder_avg (gains closes) j with
    | none => rw [hgj] at hs; exact absurd hs (by simp)
    | some g =>
      cases hlj : wilder_avg (losses closes) j with
      | none => rw [hgj, hlj] at hs; exact absurd hs (by simp)
      | some l =>
        rw [hgj, hlj] at hs
        dsimp only at hs
        have hg0 : 0 ≤ g := wilder_avg_nonneg (gains_nonneg closes) j g hgj
        have hl0 : 0 ≤ l := wilder_avg_nonneg (losses_nonneg closes) j l hlj
        by_cases hl : l = 0
        · rw [if_pos hl] at hs
          by_cases hg' : g = 0
          · rw [if_pos hg'] at hs
            exact absurd hs (by simp)
          · rw [if_neg hg'] at hs
            injection hs with hs
            subst hs
            exact ⟨by norm_num, le_refl 100, g, l, rfl, rfl, Or.inl hl⟩
        · rw [if_neg hl] at hs
          injection hs with hs
          subst hs
          have hlpos : 0 < l := lt_of_le_of_ne hl0 (fun hh => hl hh.symm)
          have hrs : 0 ≤ g / l := div_nonneg hg0 hlpos.le
          refine ⟨?_, ?_, g, l, rfl, rfl, Or.inr rfl⟩
          · have : 100 / (1 + g / l) ≤ 100 :=
              div_le_self (by norm_num) (by linarith)
            linarith
          · have : 0 < 100 / (1 + g / l) :=
              div_pos (by norm_num) (by linarith)
            linarith

/-- Witness for C4 (amended): closes `[5, 5, 6]`, period 2, index 2 has
average gain 1/2 and average loss 0, and the indicators.py RSI value
`100 - 100/(1 + (1/2)/eps)` lies in `[0, 100)`; the main.py conclusions are
instantiated at the same close series. -/
theorem rsi_rolling_formula_range_witness :
    (0 ≤ (100 - 100 / (1 + (1 / 2) / npEps) : ℚ) ∧
     (100 - 100 / (1 + (1 / 2) / npEps) : ℚ) < 100 ∧
     (∃ g l, rollingMean (gains [5, 5, 6]) 2 2 = some g ∧
             rollingMean (losses [5, 5, 6]) 2 2 = some l ∧
             (100 - 100 / (1 + (1 / 2) / npEps) : ℚ)
               = 100 - 100 / (1 + g / (if l = 0 then npEps else l))) ∧
     (rollingMean (gains [5, 5, 6]) 2 2 = some 0 →
      rollingMean (losses [5, 5, 6]) 2 2 = some 0 →
      (100 - 100 / (1 + (1 / 2) / npEps) : ℚ) = 0)) ∧
    (∀ j g, wilder_avg (gains [5, 5, 6]) j = some g → 0 < g →
      wilder_avg (losses [5, 5, 6]) j = some 0 →
      rsi_main [5, 5, 6] j = some 100) ∧
    (∀ j, wilder_avg (gains [5, 5, 6]) j = some 0 →
      wilder_avg (losses [5, 5, 6]) j = some 0 →
      rsi_main [5, 5, 6] j = none) ∧
    (∀ j s, rsi_main [5, 5, 6] j = some s → 0 ≤ s ∧ s ≤ 100 ∧
      (∃ g l, wilder_avg (gains [5, 5, 6]) j = some g ∧
              wilder_avg (losses [5, 5, 6]) j = some l ∧
              (l = 0 ∨ s = 100 - 100 / (1 + g / l)))) :=
  rsi_rolling_formula_range [5, 5, 6] 2 2 _
    (by norm_num [rsi_rolling, rollingMean, gains, losses, diffs, npEps,
      List.range_succ])

theorem emaFrom_length (α prev : ℚ) (xs : List ℚ) :
    (emaFrom α prev xs).length = xs.length := by
  induction xs generalizing prev with
  | nil => rfl
  | cons x xs ih => simp [emaFrom, ih]

theorem ema_length (span : ℕ) (xs : List ℚ) :
    (ema span xs).length = xs.length := by
  cases xs with
  | nil => rfl
  | cons x xs => simp [ema, emaFrom_length]

/-- Counterexample for C8: with inverted spans fast = 26 ≥ slow = 12,
`calculate_macd` happily produces a (sign-flipped) result instead of an
`InvalidConfigurationError`. -/
theorem macd_no_validation_cx :
    calculate_macd [1, 2] 26 12 9
      = Except.ok ([0, -28 / 351], [0, -28 / 1755], [0, -112 / 1755]) := by
  norm_num [calculate_macd, ema, emaFrom]

/-- C8 amended: `calculate_macd` performs no validation of its spans at all:
for every spans (inverted fast ≥ slow included) it returns an `ok` triple in
which the MACD line is pointwise `ema(fast) - ema(slow)`, the signal line is
`ema(macdLine, signalSpan)`, the histogram is pointwise
`macdLine - signalLine`, and all three series have the source's length. -/
theorem calculate_macd_formula (closes : List ℚ) (fast slow sspan : ℕ) :
    ∃ macd sig hist,
      calculate_macd closes fast slow sspan = Except.ok (macd, sig, hist) ∧
      macd.length = closes.length ∧ sig.length = closes.length ∧
      hist.length = closes.length ∧
      sig = ema sspan macd ∧
      (∀ i, i < closes.length →
        macd.getD i 0 = (ema fast closes).getD i 0 - (ema slow closes).getD i 0) ∧
      (∀ i, i < closes.length →
        hist.getD i 0 = macd.getD i 0 - sig.getD i 0) := by
  refine ⟨_, _, _, rfl, ?_, ?_, ?_, rfl, ?_, ?_⟩
  · simp [List.length_zipWith, ema_length]
  · simp [ema_length, List.length_zipWith]
  · simp [List.length_zipWith, ema_length]
  · intro i hi
    have h1 : i < (ema fast closes).length := by rw [ema_length]; exact hi
    have h2 : i < (ema slow closes).length := by rw [ema_length]; exact hi
    have hz : i < (List.zipWith (· - ·) (ema fast closes) (ema slow closes)).length := by
      simp [List.length_zipWith, ema_length]; omega
    rw [List.getD_eq_getElem _ 0 hz, List.getD_eq_getElem _ 0 h1,
      List.getD_eq_getElem _ 0 h2, List.getElem_zipWith]
  · intro i hi
    have hm : i < (List.zipWith (· - ·) (ema fast closes) (ema slow closes)).length := by
      simp [List.length_zipWith, ema_length]; omega
    have hs : i < (ema sspan (List.zipWith (· - ·) (ema fast closes) (ema slow closes))).length := by
      rw [ema_length]; exact hm
    have hz : i < (List.zipWith (· - ·)
        (List.zipWith (· - ·) (ema fast closes) (ema slow closes))
        (ema sspan (List.zipWith (· - ·) (ema fast closes) (ema slow closes)))).length := by
      simp [List.length_zipWith, ema_length]
      omega
    rw [List.getD_eq_getElem _ 0 hz, List.getD_eq_getElem _ 0 hm,
      List.getD_eq_getElem _ 0 hs, List.getElem_zipWith]

theorem getD_map_range {α : Type} [Inhabited α] (n i : ℕ) (f : ℕ → α)
    (hi : i < n) : ((List.range n).map f).getD i default = f i := by
  have h : i < ((List.range n).map f).length := by simp [hi]
  rw [List.getD_eq_getElem _ _ h, List.getElem_map, List.getElem_range]

/-- C2: at every position of the generated signals frame, `Buy_Signal` holds
iff the count of rules voting +1 reaches `min_confirm` and `Sell_Signal` holds
iff the count of rules voting -1 does, the two counts ranging over the same
five rule columns and evaluated independently; in particular `min_confirm = 2`
with exactly 2 buy votes and 1 sell vote gives Buy and not Sell. -/
theorem aggregated_decision_spec (cfg : Config) (data : List IndRow) (i : ℕ)
    (hi : i < (dropna data).length) :
    ∃ r, (generate_signals cfg data).getD i default = r ∧
      (r.buySignal = true ↔ cfg.minConfirm ≤ r.totalBuy) ∧
      (r.sellSignal = true ↔ cfg.minConfirm ≤ r.totalSell) ∧
      r.totalBuy = total_buy_signals
        [r.maSignal, r.rsiSignal, r.macdSignal, r.bbSignal, r.priceMaRelation] ∧
      r.totalSell = total_sell_signals
        [r.maSignal, r.rsiSignal, r.macdSignal, r.bbSignal, r.priceMaRelation] ∧
      (cfg.minConfirm = 2 → r.totalBuy = 2 → r.totalSell = 1 →
        r.buySignal = true ∧ r.sellSignal = false) := by
  refine ⟨(generate_signals cfg data).getD i default, rfl, ?_⟩
  simp only [generate_signals]
  rw [getD_map_range _ _ _ hi]
  refine ⟨by simp, by simp, rfl, rfl, ?_⟩
  intro hm h2 h1
  dsimp only at h2 h1 ⊢
  rw [hm, h2, h1]
  exact ⟨by decide, by decide⟩

/-- A fully defined indicator row, used as a concrete input. -/
def rowCx : IndRow :=
  { close := 1, maS := some 1, maL := some 1, rsiS := some 50, rsiL := some 50,
    macd := 0, macdSig := 0, macdHist := 0, bbMid := some 1, bbStd := some 0,
    bbUp := some 1, bbLo := some 1 }

/-- Witness for C2 on a one-row frame with every column defined. -/
theorem aggregated_decision_spec_witness :
    ∃ r, (generate_signals cfgCx [rowCx]).getD 0 default = r ∧
      (r.buySignal = true ↔ cfgCx.minConfirm ≤ r.totalBuy) ∧
      (r.sellSignal = true ↔ cfgCx.minConfirm ≤ r.totalSell) ∧
      r.totalBuy = total_buy_signals
        [r.maSignal, r.rsiSignal, r.macdSignal, r.bbSignal, r.priceMaRelation] ∧
      r.totalSell = total_sell_signals
        [r.maSignal, r.rsiSignal, r.macdSignal, r.bbSignal, r.priceMaRelation] ∧
      (cfgCx.minConfirm = 2 → r.totalBuy = 2 → r.totalSell = 1 →
        r.buySignal = true ∧ r.sellSignal = false) :=
  aggregated_decision_spec cfgCx [rowCx] 0 (by decide)

/-- Counterexample for C7: for closes `[1, 2]` under `cfgCx`, the first row of
the indicator frame has undefined warm-up entries, `generate_signals` drops it
(src/src/signal_generator.py line 35), and the signals frame has length 1
while the source series has length 2. -/
theorem generated_signals_shorter_cx :
    (generate_signals cfgCx (calculate_all cfgCx (fun q => q) [1, 2])).length = 1 ∧
    ¬ (generate_signals cfgCx (calculate_all cfgCx (fun q => q) [1, 2])).length
        = ([1, 2] : List ℚ).length := by
  have h : (generate_signals cfgCx (calculate_all cfgCx (fun q => q) [1, 2])).length = 1 := by
    norm_num [generate_signals, dropna, calculate_all, rowDefined, rollingMean,
      rollingStd, rsi_rolling, gains, losses, diffs, npEps, ema, emaFrom, cfgCx,
      List.range_succ, List.filter]
  exact ⟨h, by rw [h]; decide⟩

/-- C7 amended: the indicator stage (`calculate_all`) preserves the source's
length and alignment, with each warm-up entry present as an undefined value;
but `generate_signals` first drops every row containing an undefined value,
so its output series are aligned with the dropna'd frame and are shorter than
the source whenever warm-up rows exist. -/
theorem indicator_alignment (cfg : Config) (sq : ℚ → ℚ) (closes : List ℚ) :
    (calculate_all cfg sq closes).length = closes.length ∧
    (∀ i, i < closes.length →
      ((calculate_all cfg sq closes).getD i default).close = closes.getD i 0) ∧
    (∀ i, i < closes.length → i + 1 < cfg.maLong →
      ((calculate_all cfg sq closes).getD i default).maL = none) ∧
    (generate_signals cfg (calculate_all cfg sq closes)).length
      = (dropna (calculate_all cfg sq closes)).length := by
  refine ⟨by simp [calculate_all], ?_, ?_, by simp [generate_signals]⟩
  · intro i hi
    simp only [calculate_all]
    rw [getD_map_range _ _ _ hi]
  · intro i hi hw
    simp only [calculate_all]
    rw [getD_map_range _ _ _ hi]
    show rollingMean closes cfg.maLong i = none
    unfold rollingMean
    rw [if_neg]
    intro ⟨h1, _⟩
    omega

/-- C6 (evaluating the code at the inputs the claim covers):
`check_all_signals None` raises `TypeError` because the return expression of
the short-input guard calls `len(df)` on `None`; real frames of length 0 and 2
yield the defined empty outcome, and `check_cross_signals` handles `None` and
lengths 0 and 2 without any exception. -/
theorem short_input_behaviour :
    check_all_signals none = Except.error PyError.typeError ∧
    check_all_signals (some ⟨[], true⟩) = Except.ok (emptySignals, none) ∧
    check_all_signals (some ⟨[default, default], false⟩)
      = Except.ok (emptySignals, some 1) ∧
    check_cross_signals none = (false, false, none) ∧
    check_cross_signals (some []) = (false, false, none) ∧
    check_cross_signals (some [⟨none, none⟩, ⟨none, none⟩])
      = (false, false, some 1) :=
  ⟨rfl, rfl, rfl, rfl, rfl, rfl⟩

/-- C9: the whole signal pipeline — indicator computation, signal generation
and `check_all_signals` — is a pure function of its inputs: two evaluations on
identical inputs produce identical outputs. -/
theorem engine_deterministic (cfg : Config) (sq : ℚ → ℚ) (c1 c2 : List ℚ)
    (df1 df2 : Option AFrame) (hc : c1 = c2) (hdf : df1 = df2) :
    calculate_all cfg sq c1 = calculate_all cfg sq c2 ∧
    generate_signals cfg (calculate_all cfg sq c1)
      = generate_signals cfg (calculate_all cfg sq c2) ∧
    check_all_signals df1 = check_all_signals df2 := by
  subst hc
  subst hdf
  exact ⟨rfl, rfl, rfl⟩

/-- Witness for C9 at concrete inputs. -/
theorem engine_deterministic_witness :
    calculate_all cfgCx (fun q => q) [1, 2]
      = calculate_all cfgCx (fun q => q) [1, 2] ∧
    generate_signals cfgCx (calculate_all cfgCx (fun q => q) [1, 2])
      = generate_signals cfgCx (calculate_all cfgCx (fun q => q) [1, 2]) ∧
    check_all_signals none = check_all_signals none :=
  engine_deterministic cfgCx (fun q => q) [1, 2] [1, 2] none none rfl rfl

/-- Witness for C7 at closes `[1, 2]` under `cfgCx`. -/
theorem indicator_alignment_witness :
    (calculate_all cfgCx (fun q => q) [1, 2]).length = ([1, 2] : List ℚ).length ∧
    (∀ i, i < ([1, 2] : List ℚ).length →
      ((calculate_all cfgCx (fun q => q) [1, 2]).getD i default).close
        = ([1, 2] : List ℚ).getD i 0) ∧
    (∀ i, i < ([1, 2] : List ℚ).length → i + 1 < cfgCx.maLong →
      ((calculate_all cfgCx (fun q => q) [1, 2]).getD i default).maL = none) ∧
    (generate_signals cfgCx (calculate_all cfgCx (fun q => q) [1, 2])).length
      = (dropna (calculate_all cfgCx (fun q => q) [1, 2])).length :=
  indicator_alignment cfgCx (fun q => q) [1, 2]

/-- Witness for C8 (amended) at closes `[1, 2]` with inverted spans. -/
theorem calculate_macd_formula_witness :
    ∃ macd sig hist,
      calculate_macd [1, 2] 26 12 9 = Except.ok (macd, sig, hist) ∧
      macd.length = ([1, 2] : List ℚ).length ∧
      sig.length = ([1, 2] : List ℚ).length ∧
      hist.length = ([1, 2] : List ℚ).length ∧
      sig = ema 9 macd ∧
      (∀ i, i < ([1, 2] : List ℚ).length →
        macd.getD i 0
          = (ema 26 [1, 2]).getD i 0 - (ema 12 [1, 2]).getD i 0) ∧
      (∀ i, i < ([1, 2] : List ℚ).length →
        hist.getD i 0 = macd.getD i 0 - sig.getD i 0) :=
  calculate_macd_formula [1, 2] 26 12 9

/-- Witness for C10 at a frame in which a golden cross fires. -/
theorem check_cross_signals_not_both_witness :
    ((check_cross_signals
        (some [⟨some 1, some 2⟩, ⟨some 1, some 2⟩, ⟨some 3, some 2⟩])).1 &&
     (check_cross_signals
        (some [⟨some 1, some 2⟩, ⟨some 1, some 2⟩, ⟨some 3, some 2⟩])).2.1)
      = false :=
  check_cross_signals_not_both
    (some [⟨some 1, some 2⟩, ⟨some 1, some 2⟩, ⟨some 3, some 2⟩])

end SP500
